import Mathlib

/-!
# Request/reply correlation over a publish-subscribe transport

A shallow embedding of `src/main_client.cpp` (class `ServiceClient`, `main`) and
`src/main_server.cpp` (class `ServiceServer`, `main`).

Conventions of the embedding

* The template parameters `RequestTS::DataType` / `ResponseTS::DataType` are the type
  variables `Req` / `Res`.
* A data reader is the finite queue of samples it currently holds; `take_next_sample`
  pops the head and answers `OK`, or answers `NO_DATA` on the empty queue.
* A call through a `std::function` member (`callback_`) or through the transport
  (`extended_write`) is an observable event.  The functions below return the events in the
  order in which the C++ statements perform them.
* A `std::string` is a `String` whose characters stand for the C++ `char`s, one each, so
  `String.length` is `std::string::size()`.
* Declarations that live in the transport library and not in the two source files
  (`SampleKey`, `SAMPLEKEY_INVALID`, `StaticString256`, `extended_write`) are parameters,
  or are modelled under a doc comment that says so.
-/

namespace DdsPoc

/-! ## Data model -/

/-- Modelled from the spec: `datacentric::SampleKey` is declared in the transport library.
The spec describes a correlation key as "composed of a publisher identity and a
monotonically increasing sequence number"; the source reads its member `sequence_number`
(`main_client.cpp:200`, `:232`) and compares keys by value (`:140`). -/
structure SampleKey where
  writer_guid : Nat
  sequence_number : Int
  deriving DecidableEq, Repr

/-- The value of `datacentric::SampleKey key = {}` (`main_client.cpp:122`,
`main_server.cpp:141`), taken to be the all-zero key.  It is only the incoming value of the
in-out argument of `extended_write`. -/
def SampleKey.value_initialized : SampleKey := ⟨0, 0⟩

/-- Result of a transport call, `dds::ReturnCode`.  The source only distinguishes `OK`. -/
inductive ReturnCode where
  | OK
  | NO_DATA
  | ERROR
  deriving DecidableEq, Repr

/-- The member `SampleInfo::extension` with the two identities the source reads. -/
structure SampleInfoExtension where
  sample_identity : SampleKey
  related_sample_identity : SampleKey
  deriving DecidableEq, Repr

/-- The `SampleInfo` fields the source reads: `valid_data` and `extension`. -/
structure SampleInfo where
  valid_data : Bool
  extension : SampleInfoExtension
  deriving DecidableEq, Repr

/-- What one successful `take_next_sample(data, info)` stores in its two out-parameters. -/
structure Sample (α : Type) where
  data : α
  info : SampleInfo
  deriving DecidableEq, Repr

/-- A typed data reader: the queue of samples available, oldest first. -/
abbrev TypedDataReader (α : Type) := List (Sample α)

/-- The call `typed_reader->take_next_sample(data, info)`: `OK` together with the head
sample and the shortened queue, or `NO_DATA` on the empty queue.  On `OK` both
out-parameters are taken to be written in full, so nothing of an earlier sample stays in
the locals `data` and `info` that the loops reuse. -/
def take_next_sample {α : Type} (reader : TypedDataReader α) :
    ReturnCode × Option (Sample α) × TypedDataReader α :=
  match reader with
  | [] => (ReturnCode.NO_DATA, none, [])
  | s :: rest => (ReturnCode.OK, some s, rest)

/-- The inline parameter `inline_qos.related_sample_identity`: `init()` marks it present,
then its member `related_sample_identity` is assigned (`main_server.cpp:138-139`). -/
structure RelatedSampleIdentityParameter where
  initialized : Bool
  related_sample_identity : SampleKey
  deriving DecidableEq, Repr

/-- The `InlineQoS` object handed to `extended_write`. -/
structure InlineQoS where
  related_sample_identity : RelatedSampleIdentityParameter
  deriving DecidableEq, Repr

/-- The transport's publish primitive `extended_write(data, HANDLE_NIL, now, inline_qos, key)`
as a parameter: from the writer state, the payload, the optional inline QoS (`nullptr` is
`none`) and the incoming value of the in-out argument `key`, it gives the return code, the
outgoing value of `key` and the next writer state.  The time point argument is not modelled. -/
abbrev ExtendedWrite (W α : Type) :=
  W → α → Option InlineQoS → SampleKey → ReturnCode × SampleKey × W

/-! ## ServiceClient (`main_client.cpp`) -/

/-- The data members of `ServiceClient` that the modelled methods use.  `W` is the state of
the writer behind `request_writer_`; `callback_` is observed through the invocation log. -/
structure ServiceClient (W : Type) where
  request_topic_name_ : String
  response_topic_name_ : String
  request_type_name_ : String
  response_type_name_ : String
  request_writer_ : W

namespace ServiceClient

/-- `ServiceClient::send_request` (`main_client.cpp:115-128`): value-initialise `key`, make
one `extended_write` call with a null inline QoS, ignore its return code, return `key`. -/
def send_request {W Req : Type} (extended_write : ExtendedWrite W Req)
    (self : ServiceClient W) (request : Req) : SampleKey × ServiceClient W :=
  let key := SampleKey.value_initialized
  let (_, key, writer) := extended_write self.request_writer_ request none key
  (key, { self with request_writer_ := writer })

/-- A run of `send_request` calls, one per element of `requests`, in order; gives the keys
returned and the final client state. -/
def send_requests {W Req : Type} (extended_write : ExtendedWrite W Req) :
    ServiceClient W → List Req → List SampleKey × ServiceClient W
  | self, [] => ([], self)
  | self, request :: rest =>
    let (key, self1) := send_request extended_write self request
    let (keys, self2) := send_requests extended_write self1 rest
    (key :: keys, self2)

/-- `ServiceClient::on_data_available` (`main_client.cpp:130-145`).  `log` is the sequence of
`callback_(key, response)` invocations made so far; the result is the log and the reader
queue when the `while` loop exits.  No data member is assigned by the body.

* `[]`: `take_next_sample` does not answer `OK`, the loop ends.
* `s :: rest`: `take_next_sample` answers `OK` and stores `s`; the `if` of line 140 decides
  whether `callback_` is invoked, then the loop continues with `rest`. -/
def on_data_available {W Res : Type} (SAMPLEKEY_INVALID : SampleKey) (self : ServiceClient W) :
    TypedDataReader Res → List (SampleKey × Res) → List (SampleKey × Res) × TypedDataReader Res
  | [], log => (log, [])
  | s :: rest, log =>
    if s.info.valid_data && s.info.extension.related_sample_identity != SAMPLEKEY_INVALID then
      on_data_available SAMPLEKEY_INVALID self rest
        (log ++ [(s.info.extension.related_sample_identity, s.data)])
    else
      on_data_available SAMPLEKEY_INVALID self rest log

/-- The inbound policy in the words of the spec: of the samples in arrival order, those with
`valid_data` and a related key other than the null key give one `(key, payload)` each. -/
def expected_callbacks {Res : Type} (SAMPLEKEY_INVALID : SampleKey)
    (samples : List (Sample Res)) : List (SampleKey × Res) :=
  (samples.filter (fun s =>
      s.info.valid_data && s.info.extension.related_sample_identity != SAMPLEKEY_INVALID)).map
    (fun s => (s.info.extension.related_sample_identity, s.data))

end ServiceClient

/-! ## ServiceServer (`main_server.cpp`) -/

/-- The data members of `ServiceServer` that the modelled methods use. -/
structure ServiceServer (Req Res : Type) where
  request_topic_name_ : String
  response_topic_name_ : String
  request_type_name_ : String
  response_type_name_ : String
  callback_ : Req → Res

namespace ServiceServer

/-- What `on_data_available` does that is visible outside it: an invocation of the handler
`callback_(request)` and a call `extended_write(response, …, &inline_qos, key)` on the
response writer. -/
inductive Event (Req Res : Type) where
  | callback_ (request : Req)
  | extended_write (response : Res) (inline_qos : InlineQoS)
  deriving DecidableEq, Repr

/-- `ServiceServer::on_data_available` (`main_server.cpp:115-146`).  `trace` holds the events
so far.  For a sample with `valid_data` the body calls the handler, builds the inline QoS
from `info.extension.sample_identity` and calls `extended_write`; the return code and the
key written back by `extended_write` are discarded. -/
def on_data_available {Req Res : Type} (self : ServiceServer Req Res) :
    TypedDataReader Req → List (Event Req Res) → List (Event Req Res) × TypedDataReader Req
  | [], trace => (trace, [])
  | s :: rest, trace =>
    if s.info.valid_data then
      let response := self.callback_ s.data
      let inline_qos : InlineQoS :=
        { related_sample_identity :=
            { initialized := true, related_sample_identity := s.info.extension.sample_identity } }
      on_data_available self rest
        (trace ++ [Event.callback_ s.data, Event.extended_write response inline_qos])
    else
      on_data_available self rest trace

/-- The handler invocations of a trace, in order, each with its argument. -/
def handler_calls {Req Res : Type} : List (Event Req Res) → List Req
  | [] => []
  | Event.callback_ request :: rest => request :: handler_calls rest
  | Event.extended_write _ _ :: rest => handler_calls rest

/-- The publications of a trace, in order: payload and inline QoS of each `extended_write`. -/
def publications {Req Res : Type} : List (Event Req Res) → List (Res × InlineQoS)
  | [] => []
  | Event.callback_ _ :: rest => publications rest
  | Event.extended_write response inline_qos :: rest => (response, inline_qos) :: publications rest

/-- The responder contract in the words of the spec: one response per valid request sample,
in arrival order, carrying `handler(request)` and a back-reference to the request's own
transport-level identity. -/
def expected_publications {Req Res : Type} (handler : Req → Res)
    (samples : List (Sample Req)) : List (Res × InlineQoS) :=
  (samples.filter (fun s => s.info.valid_data)).map
    (fun s => (handler s.data, ⟨⟨true, s.info.extension.sample_identity⟩⟩))

end ServiceServer

/-! ## Name derivation (the first statements of both constructors) -/

/-- `std::string::c_str()` read as a C string by the receiving constructor: the characters
before the first NUL character. -/
def c_str (s : String) : List Char :=
  s.data.takeWhile (fun c => c != Char.ofNat 0)

/-- The behaviour of `memory::container::StaticString256`, a fixed-capacity string of the
transport library whose declaration is not in the source files, as a parameter: how many
characters it holds, and what its constructor stores for a longer C string. -/
structure StaticStringModel where
  capacity : Nat
  overflow : List Char → List Char

/-- The conversion `memory::container::StaticString256(const char*)`: a C string that fits is
stored as it is. -/
def StaticString256 (impl : StaticStringModel) (cstr : List Char) : String :=
  if cstr.length ≤ impl.capacity then String.mk cstr else String.mk (impl.overflow cstr)

/-- A `StaticString256` of 256 characters that cuts a longer C string. -/
def StaticStringModel.truncating : StaticStringModel :=
  { capacity := 256, overflow := fun cstr => cstr.take 256 }

/-- The four strings a constructor stores. -/
structure ServiceNames where
  request_topic_name_ : String
  response_topic_name_ : String
  request_type_name_ : String
  response_type_name_ : String
  deriving DecidableEq, Repr

/-- The assignments of `ServiceClient::ServiceClient`, `main_client.cpp:82-90`. -/
def ServiceClient.derive_names (impl : StaticStringModel)
    (service_name service_type_name : String) : ServiceNames :=
  { request_topic_name_ := StaticString256 impl (c_str ("rq/" ++ service_name ++ "Request"))
    response_topic_name_ := StaticString256 impl (c_str ("rr/" ++ service_name ++ "Reply"))
    request_type_name_ := StaticString256 impl (c_str (service_type_name ++ "Request_"))
    response_type_name_ := StaticString256 impl (c_str (service_type_name ++ "Response_")) }

/-- The assignments of `ServiceServer::ServiceServer`, `main_server.cpp:78-86`. -/
def ServiceServer.derive_names (impl : StaticStringModel)
    (service_name service_type_name : String) : ServiceNames :=
  { request_topic_name_ := StaticString256 impl (c_str ("rq/" ++ service_name ++ "Request"))
    response_topic_name_ := StaticString256 impl (c_str ("rr/" ++ service_name ++ "Reply"))
    request_type_name_ := StaticString256 impl (c_str (service_type_name ++ "Request_"))
    response_type_name_ := StaticString256 impl (c_str (service_type_name ++ "Response_")) }

/-- The naming convention in the words of the spec: prefix "rq/" and suffix "Request" for the
request channel, "rr/" and "Reply" for the response channel, type suffixes "Request_" and
"Response_". -/
def convention_names (service_name service_type_name : String) : ServiceNames :=
  { request_topic_name_ := "rq/" ++ service_name ++ "Request"
    response_topic_name_ := "rr/" ++ service_name ++ "Reply"
    request_type_name_ := service_type_name ++ "Request_"
    response_type_name_ := service_type_name ++ "Response_" }

/-! ## Entity creation and process start -/

/-- What the factory calls of one process start return; `none` is `nullptr`.  `W` is the
state of the data writer created. -/
structure Factory (W : Type) where
  create_participant : Option Unit
  create_topic_request : Option Unit
  create_topic_response : Option Unit
  create_publisher : Option Unit
  create_subscriber : Option Unit
  create_datawriter : Option W
  create_datareader : Option Unit

/-- A factory all of whose calls succeed. -/
def Factory.all_created {W : Type} (writer : W) : Factory W :=
  { create_participant := some ()
    create_topic_request := some ()
    create_topic_response := some ()
    create_publisher := some ()
    create_subscriber := some ()
    create_datawriter := some writer
    create_datareader := some () }

/-- Execution leaves defined behaviour: the named pointer is null where it is dereferenced. -/
inductive Fault where
  | null_dereference (pointer : String)
  deriving DecidableEq, Repr

/-- Use of `p->…` or `*p`. -/
def deref {α : Type} (pointer : String) : Option α → Except Fault α
  | some a => Except.ok a
  | none => Except.error (Fault.null_dereference pointer)

/-- The rest of `ServiceClient::ServiceClient`, `main_client.cpp:95-112`: the six creation
calls store their result without a test, then every pointer is dereferenced. -/
def ServiceClient.create_entities {W : Type} (factory : Factory W) : Except Fault W := do
  let request_topic_ := factory.create_topic_request
  let response_topic_ := factory.create_topic_response
  let publisher_ := factory.create_publisher
  let subscriber_ := factory.create_subscriber
  -- request_writer_ = publisher_->create_datawriter(*request_topic_, …)
  let _ ← deref "publisher_" publisher_
  let _ ← deref "request_topic_" request_topic_
  let request_writer_ := factory.create_datawriter
  -- response_reader_ = subscriber_->create_datareader(*response_topic_, …)
  let _ ← deref "subscriber_" subscriber_
  let _ ← deref "response_topic_" response_topic_
  let response_reader_ := factory.create_datareader
  -- the enable() calls
  let _ ← deref "request_topic_" request_topic_
  let _ ← deref "response_topic_" response_topic_
  let _ ← deref "publisher_" publisher_
  let _ ← deref "subscriber_" subscriber_
  let writer ← deref "request_writer_" request_writer_
  let _ ← deref "response_reader_" response_reader_
  pure writer

/-- The rest of `ServiceServer::ServiceServer`, `main_server.cpp:91-112`. -/
def ServiceServer.create_entities {W : Type} (factory : Factory W) : Except Fault W := do
  let request_topic_ := factory.create_topic_request
  let response_topic_ := factory.create_topic_response
  let publisher_ := factory.create_publisher
  let subscriber_ := factory.create_subscriber
  -- response_writer_ = publisher_->create_datawriter(*response_topic_, …)
  let _ ← deref "publisher_" publisher_
  let _ ← deref "response_topic_" response_topic_
  let response_writer_ := factory.create_datawriter
  -- request_reader_ = subscriber_->create_datareader(*request_topic_, …)
  let _ ← deref "subscriber_" subscriber_
  let _ ← deref "request_topic_" request_topic_
  let request_reader_ := factory.create_datareader
  -- the enable() calls
  let _ ← deref "request_topic_" request_topic_
  let _ ← deref "response_topic_" response_topic_
  let _ ← deref "publisher_" publisher_
  let _ ← deref "subscriber_" subscriber_
  let writer ← deref "response_writer_" response_writer_
  let _ ← deref "request_reader_" request_reader_
  pure writer

/-- `ServiceClient::ServiceClient` as a whole: names, then entities. -/
def ServiceClient.construct {W : Type} (impl : StaticStringModel) (factory : Factory W)
    (service_name service_type_name : String) : Except Fault (ServiceClient W) := do
  let names := ServiceClient.derive_names impl service_name service_type_name
  let writer ← ServiceClient.create_entities factory
  pure { request_topic_name_ := names.request_topic_name_
         response_topic_name_ := names.response_topic_name_
         request_type_name_ := names.request_type_name_
         response_type_name_ := names.response_type_name_
         request_writer_ := writer }

/-- `ServiceServer::ServiceServer` as a whole: names, then entities. -/
def ServiceServer.construct {W Req Res : Type} (impl : StaticStringModel) (factory : Factory W)
    (service_name service_type_name : String) (callback : Req → Res) :
    Except Fault (ServiceServer Req Res) := do
  let names := ServiceServer.derive_names impl service_name service_type_name
  let _ ← ServiceServer.create_entities factory
  pure { request_topic_name_ := names.request_topic_name_
         response_topic_name_ := names.response_topic_name_
         request_type_name_ := names.request_type_name_
         response_type_name_ := names.response_type_name_
         callback_ := callback }

/-- How a process start ends: `main` returns `status` after writing `stderr`; or execution
dereferences a null pointer; or it reaches the `while (1)` event loop. -/
inductive Outcome where
  | exit (status : Int) (stderr : String)
  | undefined_behaviour (fault : Fault)
  | event_loop
  deriving DecidableEq, Repr

/-- The macro `CHECK_ENTITY_CREATION(entity)` (`main_client.cpp:31-35`, `main_server.cpp:29-33`):
for a null entity write "Error creating " and the entity's spelling, and `return 1`. -/
def CHECK_ENTITY_CREATION {α : Type} (entity : Option α) (spelling : String) : Option Outcome :=
  match entity with
  | none => some (Outcome.exit 1 ("Error creating " ++ spelling ++ "\n"))
  | some _ => none

/-- Start of `main` in `main_client.cpp:170-217`, up to the event loop. -/
def main_client {W : Type} (impl : StaticStringModel) (factory : Factory W) : Outcome :=
  let participant := factory.create_participant
  match CHECK_ENTITY_CREATION participant "participant" with
  | some returned => returned
  | none =>
    match ServiceClient.construct impl factory "d555_poc_get_control_value" "GenControlValueSrv_" with
    | Except.error fault => Outcome.undefined_behaviour fault
    | Except.ok _ => Outcome.event_loop

/-- The request payload of the demo, `GetControlValueReq` (declared in the header
`idl/GetControlValueReq.hpp`); the source uses its member `control_name`. -/
structure GetControlValueReq where
  control_name : String
  deriving DecidableEq, Repr

/-- The response payload of the demo, `GetControlValueRes` (declared in the header
`idl/GetControlValueRes.hpp`); the source uses its member `value`. -/
structure GetControlValueRes where
  value : Int
  deriving DecidableEq, Repr

/-- The handler lambda of `main_server.cpp:197-204`: ignores the request, answers 3000. -/
def main_server_handler (_req : GetControlValueReq) : GetControlValueRes :=
  { value := 3000 }

/-- Start of `main` in `main_server.cpp:171-218`, up to the event loop. -/
def main_server {W : Type} (impl : StaticStringModel) (factory : Factory W) : Outcome :=
  let participant := factory.create_participant
  match CHECK_ENTITY_CREATION participant "participant" with
  | some returned => returned
  | none =>
    match ServiceServer.construct impl factory "d555_poc_get_control_value" "GenControlValueSrv_"
        main_server_handler with
    | Except.error fault => Outcome.undefined_behaviour fault
    | Except.ok _ => Outcome.event_loop

/-! ## The drain loop of both `main` functions -/

/-- The executor interface `execution::ISpinnable` over an executor state `E`:
`has_pending_work()` and `spin(execution::TIME_ZERO)`. -/
structure ISpinnable (E : Type) where
  has_pending_work : E → Bool
  spin_TIME_ZERO : E → E

/-- The calls the drain loop makes on the executor. -/
inductive DrainEvent where
  | has_pending_work (answer : Bool)
  | spin_TIME_ZERO
  deriving DecidableEq, Repr

/-- The inner loop `while (executor->has_pending_work()) { executor->spin(TIME_ZERO); }`
(`main_client.cpp:219-222`, `main_server.cpp:220-223`).  `fuel` bounds the number of loop
tests; `none` means the bound was reached before the loop exited.  The result is the
executor state at exit and the calls made, in order. -/
def drain {E : Type} (executor : ISpinnable E) : Nat → E → List DrainEvent → Option (E × List DrainEvent)
  | 0, _, _ => none
  | fuel + 1, e, trace =>
    if executor.has_pending_work e then
      drain executor fuel (executor.spin_TIME_ZERO e)
        (trace ++ [DrainEvent.has_pending_work true, DrainEvent.spin_TIME_ZERO])
    else
      some (e, trace ++ [DrainEvent.has_pending_work false])

/-- The calls of a drain that spins `k` times: `k` times a test answering true followed by a
spin, then one test answering false. -/
def drain_calls : Nat → List DrainEvent
  | 0 => [DrainEvent.has_pending_work false]
  | k + 1 => DrainEvent.has_pending_work true :: DrainEvent.spin_TIME_ZERO :: drain_calls k

/-- Number of spins in a trace. -/
def spins (trace : List DrainEvent) : Nat :=
  trace.count DrainEvent.spin_TIME_ZERO

/-- An executor that holds `n` pending work units and processes one per zero-wait spin. -/
def counting_executor : ISpinnable Nat :=
  { has_pending_work := fun n => decide (0 < n)
    spin_TIME_ZERO := fun n => n - 1 }

/-! ## A transport writer that mints keys -/

/-- Modelled from the spec: the key-minting side of the transport's publish primitive
(`extended_write` of `TypedDataWriter`, declared in the transport library).  The spec has the
key "minted exactly once, at publish time, by the transport", "unique per published
request", "composed of a publisher identity and a monotonically increasing sequence
number". -/
structure DataWriter where
  guid : Nat
  last_sequence_number : Nat
  deriving DecidableEq, Repr

/-- Modelled from the spec: `extended_write` on a `DataWriter` advances the sequence number
and writes the pair (writer identity, new sequence number) to the in-out argument `key`. -/
def DataWriter.extended_write {α : Type} : ExtendedWrite DataWriter α :=
  fun writer _ _ _ =>
    let next := writer.last_sequence_number + 1
    (ReturnCode.OK, ⟨writer.guid, (next : Int)⟩, { writer with last_sequence_number := next })

/-- The transport hands a published response to the client's reader as a valid sample that
carries the payload and the related identity stamped in the inline QoS. -/
def Delivered {Res : Type} (publication : Res × InlineQoS) (s : Sample Res) : Prop :=
  s.data = publication.1 ∧ s.info.valid_data = true ∧
    s.info.extension.related_sample_identity =
      publication.2.related_sample_identity.related_sample_identity

/-! ## Lemmas on the two `on_data_available` loops -/

namespace ServiceClient

/-- The loop written with `take_next_sample`: one iteration per `OK` answer. -/
theorem client_loop_step {W Res : Type} (SAMPLEKEY_INVALID : SampleKey)
    (self : ServiceClient W) (reader : TypedDataReader Res) (log : List (SampleKey × Res)) :
    on_data_available SAMPLEKEY_INVALID self reader log =
      match take_next_sample reader with
      | (ReturnCode.OK, some s, rest) =>
        if s.info.valid_data && s.info.extension.related_sample_identity != SAMPLEKEY_INVALID then
          on_data_available SAMPLEKEY_INVALID self rest
            (log ++ [(s.info.extension.related_sample_identity, s.data)])
        else
          on_data_available SAMPLEKEY_INVALID self rest log
      | _ => (log, []) := by
  cases reader with
  | nil => simp [on_data_available, take_next_sample]
  | cons s rest => simp [on_data_available, take_next_sample]

/-- The loop appends the expected callbacks to the log and empties the reader. -/
theorem client_loop_eq {W Res : Type} (SAMPLEKEY_INVALID : SampleKey)
    (self : ServiceClient W) (reader : TypedDataReader Res) (log : List (SampleKey × Res)) :
    on_data_available SAMPLEKEY_INVALID self reader log =
      (log ++ expected_callbacks SAMPLEKEY_INVALID reader, []) := by
  induction reader generalizing log with
  | nil => simp [on_data_available, expected_callbacks]
  | cons s rest ih =>
    unfold on_data_available
    split
    · next h =>
      rw [ih]
      simp [expected_callbacks, List.filter_cons, h]
    · next h =>
      rw [ih]
      simp [expected_callbacks, List.filter_cons, h]

/-- The expected callbacks of a concatenation. -/
theorem expected_callbacks_append {Res : Type} (SAMPLEKEY_INVALID : SampleKey)
    (xs ys : List (Sample Res)) :
    expected_callbacks SAMPLEKEY_INVALID (xs ++ ys) =
      expected_callbacks SAMPLEKEY_INVALID xs ++ expected_callbacks SAMPLEKEY_INVALID ys := by
  simp [expected_callbacks]

/-- When every sample is valid and carries a non-null related key, nothing is filtered. -/
theorem expected_callbacks_all {Res : Type} (SAMPLEKEY_INVALID : SampleKey)
    (samples : List (Sample Res))
    (h : ∀ s ∈ samples, s.info.valid_data = true ∧
      s.info.extension.related_sample_identity ≠ SAMPLEKEY_INVALID) :
    expected_callbacks SAMPLEKEY_INVALID samples =
      samples.map (fun s => (s.info.extension.related_sample_identity, s.data)) := by
  unfold expected_callbacks
  rw [List.filter_eq_self.mpr]
  intro s hs
  have := h s hs
  simp [this.1, this.2]

end ServiceClient

namespace ServiceServer

theorem handler_calls_append {Req Res : Type} (xs ys : List (Event Req Res)) :
    handler_calls (xs ++ ys) = handler_calls xs ++ handler_calls ys := by
  induction xs with
  | nil => rfl
  | cons e rest ih => cases e <;> simp [handler_calls, ih]

theorem publications_append {Req Res : Type} (xs ys : List (Event Req Res)) :
    publications (xs ++ ys) = publications xs ++ publications ys := by
  induction xs with
  | nil => rfl
  | cons e rest ih => cases e <;> simp [publications, ih]

/-- The loop written with `take_next_sample`: one iteration per `OK` answer. -/
theorem server_loop_step {Req Res : Type} (self : ServiceServer Req Res)
    (reader : TypedDataReader Req) (trace : List (Event Req Res)) :
    on_data_available self reader trace =
      match take_next_sample reader with
      | (ReturnCode.OK, some s, rest) =>
        if s.info.valid_data then
          on_data_available self rest
            (trace ++ [Event.callback_ s.data,
              Event.extended_write (self.callback_ s.data)
                ⟨⟨true, s.info.extension.sample_identity⟩⟩])
        else
          on_data_available self rest trace
      | _ => (trace, []) := by
  cases reader with
  | nil => simp [on_data_available, take_next_sample]
  | cons s rest => simp [on_data_available, take_next_sample]

/-- The reader is empty when the loop exits. -/
theorem server_loop_drains {Req Res : Type} (self : ServiceServer Req Res)
    (reader : TypedDataReader Req) (trace : List (Event Req Res)) :
    (on_data_available self reader trace).2 = [] := by
  induction reader generalizing trace with
  | nil => rfl
  | cons s rest ih =>
    unfold on_data_available
    split <;> exact ih _

/-- Handler invocations of the loop: those already in the trace, then one per valid sample. -/
theorem handler_calls_on_data_available {Req Res : Type} (self : ServiceServer Req Res)
    (reader : TypedDataReader Req) (trace : List (Event Req Res)) :
    handler_calls (on_data_available self reader trace).1 =
      handler_calls trace ++ (reader.filter (fun s => s.info.valid_data)).map (fun s => s.data) := by
  induction reader generalizing trace with
  | nil => simp [on_data_available]
  | cons s rest ih =>
    unfold on_data_available
    split
    · next h =>
      rw [ih, handler_calls_append]
      simp [handler_calls, List.filter_cons, h]
    · next h =>
      rw [ih]
      simp [List.filter_cons, h]

/-- Publications of the loop: those already in the trace, then one per valid sample. -/
theorem publications_on_data_available {Req Res : Type} (self : ServiceServer Req Res)
    (reader : TypedDataReader Req) (trace : List (Event Req Res)) :
    publications (on_data_available self reader trace).1 =
      publications trace ++ expected_publications self.callback_ reader := by
  induction reader generalizing trace with
  | nil => simp [on_data_available, expected_publications]
  | cons s rest ih =>
    unfold on_data_available
    split
    · next h =>
      rw [ih, publications_append]
      simp [publications, expected_publications, List.filter_cons, h]
    · next h =>
      rw [ih]
      simp [expected_publications, List.filter_cons, h]

/-- A sample with `valid_data` false leaves the run of the loop as it is without it. -/
theorem server_loop_skip {Req Res : Type} (self : ServiceServer Req Res)
    (s : Sample Req) (hs : s.info.valid_data = false)
    (before after : List (Sample Req)) (trace : List (Event Req Res)) :
    on_data_available self (before ++ s :: after) trace =
      on_data_available self (before ++ after) trace := by
  induction before generalizing trace with
  | nil => simp [on_data_available, hs]
  | cons b rest ih =>
    simp only [List.cons_append]
    unfold on_data_available
    split <;> exact ih _

end ServiceServer

/-! ## Claims on the inbound loops -/

/-- A response sample that is not valid, or whose related key is the null key, leaves the
run of the client loop as it is without it. -/
theorem client_loop_skip {W Res : Type} (SAMPLEKEY_INVALID : SampleKey)
    (self : ServiceClient W) (s : Sample Res)
    (hs : s.info.valid_data = false ∨
      s.info.extension.related_sample_identity = SAMPLEKEY_INVALID)
    (before after : List (Sample Res)) (log : List (SampleKey × Res)) :
    ServiceClient.on_data_available SAMPLEKEY_INVALID self (before ++ s :: after) log =
      ServiceClient.on_data_available SAMPLEKEY_INVALID self (before ++ after) log := by
  have hdrop : ServiceClient.expected_callbacks SAMPLEKEY_INVALID [s] = [] := by
    rcases hs with h | h <;> simp [ServiceClient.expected_callbacks, List.filter_cons, h]
  rw [ServiceClient.client_loop_eq, ServiceClient.client_loop_eq]
  have hsplit : before ++ s :: after = before ++ ([s] ++ after) := by simp
  rw [hsplit, ServiceClient.expected_callbacks_append, ServiceClient.expected_callbacks_append,
    ServiceClient.expected_callbacks_append, hdrop]
  simp

/-- C2. For every finite sequence of response samples available at a notification,
`ServiceClient::on_data_available` takes all of them (the reader is empty afterwards) and
invokes the callback once for each sample with `valid_data` true and a related key other
than `SAMPLEKEY_INVALID`, in arrival order, with (that related key, that payload); the
number of invocations is the number of such samples; and a sample with `valid_data` false
or a null related key triggers nothing: the run with it equals the run without it. -/
theorem client_on_data_available_filters_and_drains {W Res : Type}
    (SAMPLEKEY_INVALID : SampleKey) (self : ServiceClient W) (samples : List (Sample Res)) :
    ServiceClient.on_data_available SAMPLEKEY_INVALID self samples [] =
        (ServiceClient.expected_callbacks SAMPLEKEY_INVALID samples, [])
      ∧ (ServiceClient.on_data_available SAMPLEKEY_INVALID self samples []).1.length =
        samples.countP (fun s =>
          s.info.valid_data && s.info.extension.related_sample_identity != SAMPLEKEY_INVALID)
      ∧ (∀ (s : Sample Res) (before after : List (Sample Res)) (log : List (SampleKey × Res)),
          (s.info.valid_data = false ∨
            s.info.extension.related_sample_identity = SAMPLEKEY_INVALID) →
          ServiceClient.on_data_available SAMPLEKEY_INVALID self (before ++ s :: after) log =
            ServiceClient.on_data_available SAMPLEKEY_INVALID self (before ++ after) log) := by
  refine ⟨?_, ?_, ?_⟩
  · simp [ServiceClient.client_loop_eq]
  · simp [ServiceClient.client_loop_eq, ServiceClient.expected_callbacks,
      List.countP_eq_length_filter]
  · intro s before after log hs
    exact client_loop_skip SAMPLEKEY_INVALID self s hs before after log

/-- C3. For every sequence of request samples taken by `ServiceServer::on_data_available`,
the publications are, in arrival order, one per valid request sample, with payload
`handler(request)` and an inline QoS whose related sample identity is initialised and equal
to that request sample's own `info.extension.sample_identity`. -/
theorem server_publishes_handler_result_with_request_identity {Req Res : Type}
    (self : ServiceServer Req Res) (samples : List (Sample Req)) :
    ServiceServer.publications (ServiceServer.on_data_available self samples []).1 =
        ServiceServer.expected_publications self.callback_ samples
      ∧ (ServiceServer.publications (ServiceServer.on_data_available self samples []).1).map
          (fun p => p.2.related_sample_identity.related_sample_identity) =
        (samples.filter (fun s => s.info.valid_data)).map
          (fun s => s.info.extension.sample_identity)
      ∧ (ServiceServer.on_data_available self samples []).2 = [] := by
  refine ⟨?_, ?_, ?_⟩
  · simp [ServiceServer.publications_on_data_available, ServiceServer.publications]
  · simp [ServiceServer.publications_on_data_available, ServiceServer.publications,
      ServiceServer.expected_publications]
  · exact ServiceServer.server_loop_drains self samples []

/-- C4. For every sequence of request samples taken by `ServiceServer::on_data_available`,
the handler invocations are, in arrival order, the payloads of the samples with
`valid_data` true, one invocation each; and a sample with `valid_data` false causes no
handler invocation and no publication: the run with it equals the run without it. -/
theorem server_invokes_handler_once_per_valid_sample {Req Res : Type}
    (self : ServiceServer Req Res) (samples : List (Sample Req)) :
    ServiceServer.handler_calls (ServiceServer.on_data_available self samples []).1 =
        (samples.filter (fun s => s.info.valid_data)).map (fun s => s.data)
      ∧ (ServiceServer.handler_calls (ServiceServer.on_data_available self samples []).1).length =
        samples.countP (fun s => s.info.valid_data)
      ∧ (∀ (s : Sample Req) (before after : List (Sample Req))
          (trace : List (ServiceServer.Event Req Res)),
          s.info.valid_data = false →
          ServiceServer.on_data_available self (before ++ s :: after) trace =
            ServiceServer.on_data_available self (before ++ after) trace) := by
  refine ⟨?_, ?_, ?_⟩
  · simp [ServiceServer.handler_calls_on_data_available, ServiceServer.handler_calls]
  · simp [ServiceServer.handler_calls_on_data_available, ServiceServer.handler_calls,
      List.countP_eq_length_filter]
  · intro s before after trace hs
    exact ServiceServer.server_loop_skip self s hs before after trace

/-- C1. Correlation round trip: if `send_request(R)` returns `K` with `K` not
`SAMPLEKEY_INVALID`, the request reaches the server's `on_data_available` once as a valid
sample with `sample_identity` `K`, and what the server publishes reaches the client's
`on_data_available` once as a valid sample carrying the stamped related identity, then
the server publishes exactly one response and the client's callback is invoked exactly
once, with `(K, handler(R))`. -/
theorem correlation_round_trip {W Req Res : Type} (SAMPLEKEY_INVALID : SampleKey)
    (extended_write : ExtendedWrite W Req) (client : ServiceClient W)
    (server : ServiceServer Req Res) (R : Req) (K : SampleKey)
    (request_sample : Sample Req) (response_sample : Sample Res)
    (hsend : (ServiceClient.send_request extended_write client R).1 = K)
    (hK : K ≠ SAMPLEKEY_INVALID)
    (hdata : request_sample.data = R)
    (hvalid : request_sample.info.valid_data = true)
    (hidentity : request_sample.info.extension.sample_identity = K)
    (hdelivered : ∀ p ∈ ServiceServer.publications
        (ServiceServer.on_data_available server [request_sample] []).1,
        Delivered p response_sample) :
    (ServiceServer.publications
        (ServiceServer.on_data_available server [request_sample] []).1).length = 1
      ∧ ServiceClient.on_data_available SAMPLEKEY_INVALID
          (ServiceClient.send_request extended_write client R).2 [response_sample] [] =
        ([((ServiceClient.send_request extended_write client R).1, server.callback_ R)], []) := by
  have hpub : ServiceServer.publications
      (ServiceServer.on_data_available server [request_sample] []).1 =
      [(server.callback_ R, ⟨⟨true, K⟩⟩)] := by
    simp [ServiceServer.publications_on_data_available, ServiceServer.publications,
      ServiceServer.expected_publications, List.filter_cons, hvalid, hdata, hidentity]
  have hd := hdelivered (server.callback_ R, ⟨⟨true, K⟩⟩) (by rw [hpub]; simp)
  obtain ⟨h1, h2, h3⟩ := hd
  simp only at h1 h3
  refine ⟨by rw [hpub]; rfl, ?_⟩
  rw [ServiceClient.client_loop_eq, hsend]
  simp [ServiceClient.expected_callbacks, List.filter_cons, h1, h2, h3, hK]

/-- C1 at a concrete input: a writer with identity 7 mints key (7, 1) for the request "a";
the handler is the string length. -/
theorem correlation_round_trip_witness :
    (ServiceServer.publications
        (ServiceServer.on_data_available
          (⟨"rq", "rr", "tq", "tr", String.length⟩ : ServiceServer String Nat)
          [⟨"a", ⟨true, ⟨⟨7, 1⟩, ⟨0, 0⟩⟩⟩⟩] []).1).length = 1
      ∧ ServiceClient.on_data_available (⟨0, 0⟩ : SampleKey)
          (ServiceClient.send_request DataWriter.extended_write
            (⟨"rq", "rr", "tq", "tr", ⟨7, 0⟩⟩ : ServiceClient DataWriter) "a").2
          [(⟨1, ⟨true, ⟨⟨9, 4⟩, ⟨7, 1⟩⟩⟩⟩ : Sample Nat)] [] =
        ([((ServiceClient.send_request DataWriter.extended_write
            (⟨"rq", "rr", "tq", "tr", ⟨7, 0⟩⟩ : ServiceClient DataWriter) "a").1,
            String.length "a")], []) :=
  correlation_round_trip (⟨0, 0⟩ : SampleKey) DataWriter.extended_write
    (⟨"rq", "rr", "tq", "tr", ⟨7, 0⟩⟩ : ServiceClient DataWriter)
    (⟨"rq", "rr", "tq", "tr", String.length⟩ : ServiceServer String Nat)
    "a" ⟨7, 1⟩ ⟨"a", ⟨true, ⟨⟨7, 1⟩, ⟨0, 0⟩⟩⟩⟩ ⟨1, ⟨true, ⟨⟨9, 4⟩, ⟨7, 1⟩⟩⟩⟩
    rfl (by decide) rfl rfl rfl
    (by
      intro p hp
      simp [ServiceServer.on_data_available, ServiceServer.publications] at hp
      subst hp
      exact ⟨by decide, rfl, rfl⟩)

/-! ## Claims on name derivation -/

/-- A string without a NUL character is read back whole through `c_str()`. -/
theorem c_str_of_no_nul (s : String) (h : Char.ofNat 0 ∉ s.data) : c_str s = s.data := by
  unfold c_str
  rw [List.takeWhile_eq_self_iff]
  intro c hc
  have hne : c ≠ Char.ofNat 0 := fun heq => h (heq ▸ hc)
  exact bne_iff_ne.mpr hne

/-- A string without NUL that fits the capacity is stored unchanged. -/
theorem StaticString256_c_str (impl : StaticStringModel) (s : String)
    (hnul : Char.ofNat 0 ∉ s.data) (hfit : s.length ≤ impl.capacity) :
    StaticString256 impl (c_str s) = s := by
  rw [c_str_of_no_nul s hnul]
  unfold StaticString256
  have hlen : s.data.length ≤ impl.capacity := hfit
  rw [if_pos hlen]

/-- The stored request channel name, for a name without NUL that fits. -/
theorem request_topic_name_stored (impl : StaticStringModel) (service_name : String)
    (hnul : Char.ofNat 0 ∉ service_name.data)
    (hfit : service_name.length + 10 ≤ impl.capacity) :
    StaticString256 impl (c_str ("rq/" ++ service_name ++ "Request")) =
      "rq/" ++ service_name ++ "Request" := by
  apply StaticString256_c_str
  · simp only [String.data_append, List.mem_append, not_or]
    exact ⟨⟨by decide, hnul⟩, by decide⟩
  · have h1 : ("rq/" : String).length = 3 := by decide
    have h2 : ("Request" : String).length = 7 := by decide
    simp only [String.length_append, h1, h2]
    omega

/-- The stored response channel name, for a name without NUL that fits. -/
theorem response_topic_name_stored (impl : StaticStringModel) (service_name : String)
    (hnul : Char.ofNat 0 ∉ service_name.data)
    (hfit : service_name.length + 10 ≤ impl.capacity) :
    StaticString256 impl (c_str ("rr/" ++ service_name ++ "Reply")) =
      "rr/" ++ service_name ++ "Reply" := by
  apply StaticString256_c_str
  · simp only [String.data_append, List.mem_append, not_or]
    exact ⟨⟨by decide, hnul⟩, by decide⟩
  · have h1 : ("rr/" : String).length = 3 := by decide
    have h2 : ("Reply" : String).length = 5 := by decide
    simp only [String.length_append, h1, h2]
    omega

/-- The stored request type name, for a type name without NUL that fits. -/
theorem request_type_name_stored (impl : StaticStringModel) (service_type_name : String)
    (hnul : Char.ofNat 0 ∉ service_type_name.data)
    (hfit : service_type_name.length + 9 ≤ impl.capacity) :
    StaticString256 impl (c_str (service_type_name ++ "Request_")) =
      service_type_name ++ "Request_" := by
  apply StaticString256_c_str
  · simp only [String.data_append, List.mem_append, not_or]
    exact ⟨hnul, by decide⟩
  · have h2 : ("Request_" : String).length = 8 := by decide
    simp only [String.length_append, h2]
    omega

/-- The stored response type name, for a type name without NUL that fits. -/
theorem response_type_name_stored (impl : StaticStringModel) (service_type_name : String)
    (hnul : Char.ofNat 0 ∉ service_type_name.data)
    (hfit : service_type_name.length + 9 ≤ impl.capacity) :
    StaticString256 impl (c_str (service_type_name ++ "Response_")) =
      service_type_name ++ "Response_" := by
  apply StaticString256_c_str
  · simp only [String.data_append, List.mem_append, not_or]
    exact ⟨hnul, by decide⟩
  · have h2 : ("Response_" : String).length = 9 := by decide
    simp only [String.length_append, h2]
    omega

/-- C6 as stated fails: for the non-empty service name made of `a`, a NUL character and `b`
(with a 256-character `StaticString256`), the client and the server store the request
channel name "rq/a" and the response channel name "rr/a", not "rq/" + service_name +
"Request" and "rr/" + service_name + "Reply". -/
theorem derive_names_cut_at_nul :
    String.mk ['a', Char.ofNat 0, 'b'] ≠ "" ∧ ("ValueSrv_" : String) ≠ "" ∧
    (ServiceClient.derive_names StaticStringModel.truncating
        (String.mk ['a', Char.ofNat 0, 'b']) "ValueSrv_").request_topic_name_ = "rq/a" ∧
    (ServiceServer.derive_names StaticStringModel.truncating
        (String.mk ['a', Char.ofNat 0, 'b']) "ValueSrv_").request_topic_name_ = "rq/a" ∧
    (ServiceClient.derive_names StaticStringModel.truncating
        (String.mk ['a', Char.ofNat 0, 'b']) "ValueSrv_").response_topic_name_ = "rr/a" ∧
    (ServiceClient.derive_names StaticStringModel.truncating
        (String.mk ['a', Char.ofNat 0, 'b']) "ValueSrv_").request_topic_name_ ≠
      "rq/" ++ String.mk ['a', Char.ofNat 0, 'b'] ++ "Request" ∧
    (ServiceClient.derive_names StaticStringModel.truncating
        (String.mk ['a', Char.ofNat 0, 'b']) "ValueSrv_").response_topic_name_ ≠
      "rr/" ++ String.mk ['a', Char.ofNat 0, 'b'] ++ "Reply" := by
  decide

/-- C6, amended. For every non-empty `service_name` and `service_type_name` that contain no
NUL character and are short enough for the derived strings to fit the capacity of
`StaticString256` (name + 10 and type name + 9 characters), both constructors store
"rq/" + service_name + "Request", "rr/" + service_name + "Reply", service_type_name +
"Request_" and service_type_name + "Response_"; and when the capacity is at least 19, for
("get_value", "ValueSrv_") the channels are "rq/get_valueRequest" and "rr/get_valueReply". -/
theorem derive_names_follow_convention (impl : StaticStringModel)
    (service_name service_type_name : String)
    (_hname : service_name ≠ "") (_htype : service_type_name ≠ "")
    (hname_nul : Char.ofNat 0 ∉ service_name.data)
    (htype_nul : Char.ofNat 0 ∉ service_type_name.data)
    (hname_fit : service_name.length + 10 ≤ impl.capacity)
    (htype_fit : service_type_name.length + 9 ≤ impl.capacity) :
    ServiceClient.derive_names impl service_name service_type_name =
        convention_names service_name service_type_name
      ∧ ServiceServer.derive_names impl service_name service_type_name =
        convention_names service_name service_type_name
      ∧ (19 ≤ impl.capacity →
          (ServiceClient.derive_names impl "get_value" "ValueSrv_").request_topic_name_ =
              "rq/get_valueRequest"
            ∧ (ServiceClient.derive_names impl "get_value" "ValueSrv_").response_topic_name_ =
              "rr/get_valueReply"
            ∧ (ServiceServer.derive_names impl "get_value" "ValueSrv_").request_topic_name_ =
              "rq/get_valueRequest"
            ∧ (ServiceServer.derive_names impl "get_value" "ValueSrv_").response_topic_name_ =
              "rr/get_valueReply") := by
  have h1 := request_topic_name_stored impl service_name hname_nul hname_fit
  have h2 := response_topic_name_stored impl service_name hname_nul hname_fit
  have h3 := request_type_name_stored impl service_type_name htype_nul htype_fit
  have h4 := response_type_name_stored impl service_type_name htype_nul htype_fit
  refine ⟨?_, ?_, ?_⟩
  · simp only [ServiceClient.derive_names, convention_names, h1, h2, h3, h4]
  · simp only [ServiceServer.derive_names, convention_names, h1, h2, h3, h4]
  · intro hcap
    have hlen : ("get_value" : String).length = 9 := by decide
    have g1 := request_topic_name_stored impl "get_value" (by decide) (by rw [hlen]; omega)
    have g2 := response_topic_name_stored impl "get_value" (by decide) (by rw [hlen]; omega)
    have e1 : ("rq/" ++ "get_value" ++ "Request" : String) = "rq/get_valueRequest" := by decide
    have e2 : ("rr/" ++ "get_value" ++ "Reply" : String) = "rr/get_valueReply" := by decide
    exact ⟨g1.trans e1, g2.trans e2, g1.trans e1, g2.trans e2⟩

/-- C6, amended, at the names of the demo with a 256-character `StaticString256`. -/
theorem derive_names_follow_convention_witness :
    ServiceClient.derive_names StaticStringModel.truncating
        "d555_poc_get_control_value" "GenControlValueSrv_" =
        convention_names "d555_poc_get_control_value" "GenControlValueSrv_"
      ∧ ServiceServer.derive_names StaticStringModel.truncating
        "d555_poc_get_control_value" "GenControlValueSrv_" =
        convention_names "d555_poc_get_control_value" "GenControlValueSrv_"
      ∧ (19 ≤ StaticStringModel.truncating.capacity →
          (ServiceClient.derive_names StaticStringModel.truncating
              "get_value" "ValueSrv_").request_topic_name_ = "rq/get_valueRequest"
            ∧ (ServiceClient.derive_names StaticStringModel.truncating
              "get_value" "ValueSrv_").response_topic_name_ = "rr/get_valueReply"
            ∧ (ServiceServer.derive_names StaticStringModel.truncating
              "get_value" "ValueSrv_").request_topic_name_ = "rq/get_valueRequest"
            ∧ (ServiceServer.derive_names StaticStringModel.truncating
              "get_value" "ValueSrv_").response_topic_name_ = "rr/get_valueReply") :=
  derive_names_follow_convention StaticStringModel.truncating
    "d555_poc_get_control_value" "GenControlValueSrv_"
    (by decide) (by decide) (by decide) (by decide) (by decide) (by decide)

/-- C7. For every `(service_name, service_type_name)`, empty or not, and every behaviour of
`StaticString256`, the four names the `ServiceClient` constructor derives equal, string
for string, the four names the `ServiceServer` constructor derives from the same pair; and
deriving from an equal pair again gives the same four names. -/
theorem client_and_server_derive_the_same_names (impl : StaticStringModel)
    (service_name service_type_name : String) :
    (ServiceClient.derive_names impl service_name service_type_name).request_topic_name_ =
        (ServiceServer.derive_names impl service_name service_type_name).request_topic_name_
      ∧ (ServiceClient.derive_names impl service_name service_type_name).response_topic_name_ =
        (ServiceServer.derive_names impl service_name service_type_name).response_topic_name_
      ∧ (ServiceClient.derive_names impl service_name service_type_name).request_type_name_ =
        (ServiceServer.derive_names impl service_name service_type_name).request_type_name_
      ∧ (ServiceClient.derive_names impl service_name service_type_name).response_type_name_ =
        (ServiceServer.derive_names impl service_name service_type_name).response_type_name_
      ∧ (∀ (name2 type2 : String), name2 = service_name → type2 = service_type_name →
          ServiceClient.derive_names impl name2 type2 =
              ServiceClient.derive_names impl service_name service_type_name
            ∧ ServiceServer.derive_names impl name2 type2 =
              ServiceServer.derive_names impl service_name service_type_name) := by
  refine ⟨rfl, rfl, rfl, rfl, ?_⟩
  intro name2 type2 hn ht
  subst hn ht
  exact ⟨rfl, rfl⟩

/-! ## Claim on setup failure -/

/-- C9 fails on the code for the channel entities.  When `create_participant` succeeds and
the request topic comes back null, neither `main` returns a status or writes a report:
both constructors store the null pointer untested and dereference it (`*request_topic_`
in the `create_datawriter` call of the client, in the `create_datareader` call of the
server).  The same holds for a null publisher.  Only a null participant is caught by
`CHECK_ENTITY_CREATION`: status 1 after "Error creating participant". -/
theorem null_channel_entity_is_dereferenced :
    main_client StaticStringModel.truncating
        { Factory.all_created (DataWriter.mk 7 0) with create_topic_request := none } =
        Outcome.undefined_behaviour (Fault.null_dereference "request_topic_")
      ∧ main_server StaticStringModel.truncating
        { Factory.all_created (DataWriter.mk 7 0) with create_topic_request := none } =
        Outcome.undefined_behaviour (Fault.null_dereference "request_topic_")
      ∧ main_client StaticStringModel.truncating
        { Factory.all_created (DataWriter.mk 7 0) with create_publisher := none } =
        Outcome.undefined_behaviour (Fault.null_dereference "publisher_")
      ∧ main_server StaticStringModel.truncating
        { Factory.all_created (DataWriter.mk 7 0) with create_publisher := none } =
        Outcome.undefined_behaviour (Fault.null_dereference "publisher_")
      ∧ main_client StaticStringModel.truncating
        { Factory.all_created (DataWriter.mk 7 0) with create_participant := none } =
        Outcome.exit 1 "Error creating participant\n"
      ∧ main_server StaticStringModel.truncating
        { Factory.all_created (DataWriter.mk 7 0) with create_participant := none } =
        Outcome.exit 1 "Error creating participant\n"
      ∧ main_client StaticStringModel.truncating (Factory.all_created (DataWriter.mk 7 0)) =
        Outcome.event_loop
      ∧ main_server StaticStringModel.truncating (Factory.all_created (DataWriter.mk 7 0)) =
        Outcome.event_loop := by
  decide

/-! ## Claim on the drain loop -/

/-- A drain that exits made `k` spins for some `k` below the fuel: its calls are the
earlier trace followed by `drain_calls k`, every test before the `k`-th spin answered
true, and the exit state has no pending work. -/
theorem drain_exit {E : Type} (executor : ISpinnable E) (fuel : Nat) (e : E)
    (trace : List DrainEvent) (r : E × List DrainEvent)
    (h : drain executor fuel e trace = some r) :
    ∃ k, k < fuel ∧ r.2 = trace ++ drain_calls k ∧ r.1 = executor.spin_TIME_ZERO^[k] e ∧
      executor.has_pending_work r.1 = false ∧
      ∀ j, j < k → executor.has_pending_work (executor.spin_TIME_ZERO^[j] e) = true := by
  induction fuel generalizing e trace with
  | zero => simp [drain] at h
  | succ fuel ih =>
    unfold drain at h
    split at h
    · next hp =>
      obtain ⟨k, hk, htrace, hstate, hfalse, htrue⟩ := ih _ _ h
      refine ⟨k + 1, by omega, ?_, ?_, hfalse, ?_⟩
      · rw [htrace]
        simp [drain_calls]
      · rw [hstate, Function.iterate_succ_apply]
      · intro j hj
        cases j with
        | zero => simpa using hp
        | succ j =>
          rw [Function.iterate_succ_apply]
          exact htrue j (by omega)
    · next hp =>
      have hr : r = (e, trace ++ [DrainEvent.has_pending_work false]) := by
        simpa using h.symm
      subst hr
      exact ⟨0, by omega, by simp [drain_calls], rfl, by simpa using hp, by intro j hj; omega⟩

/-- With a measure `units` that is positive exactly when work is pending and drops by one
per spin, a drain with more fuel than units exits after exactly `units e` spins. -/
theorem drain_counts_units {E : Type} (executor : ISpinnable E) (units : E → Nat)
    (hpending : ∀ e, executor.has_pending_work e = decide (0 < units e))
    (hspin : ∀ e, 0 < units e → units (executor.spin_TIME_ZERO e) = units e - 1)
    (n : Nat) (e : E) (trace : List DrainEvent) (fuel : Nat)
    (hn : units e = n) (hfuel : n < fuel) :
    drain executor fuel e trace =
      some (executor.spin_TIME_ZERO^[n] e, trace ++ drain_calls n) := by
  induction n generalizing e trace fuel with
  | zero =>
    cases fuel with
    | zero => omega
    | succ fuel =>
      have hp : executor.has_pending_work e = false := by rw [hpending, hn]; rfl
      simp [drain, hp, drain_calls]
  | succ n ih =>
    cases fuel with
    | zero => omega
    | succ fuel =>
      have hpos : 0 < units e := by omega
      have hp : executor.has_pending_work e = true := by rw [hpending]; simpa using hpos
      have hnext : units (executor.spin_TIME_ZERO e) = n := by rw [hspin e hpos]; omega
      unfold drain
      rw [if_pos hp, ih (executor.spin_TIME_ZERO e) _ fuel hnext (by omega)]
      simp [drain_calls, Function.iterate_succ_apply]

/-- The trace `drain_calls k` holds `k` spins. -/
theorem spins_drain_calls (k : Nat) : spins (drain_calls k) = k := by
  induction k with
  | zero => simp [spins, drain_calls]
  | succ k ih =>
    unfold spins at ih ⊢
    simp [drain_calls, ih]

/-- C8. Drain exhaustion, for every executor.  (a) A drain that exits made `k` spins, each
one right after a `has_pending_work()` that answered true, and exited at the first test
that answered false, with no work pending.  (b) With no work pending on entry it exits
at the first test, with zero spins.  (c) For an executor that holds `units e` pending
work units, has work pending exactly when the units are positive and processes one unit
per zero-wait spin, the drain exits (any fuel above `units e` suffices) after exactly
`units e` spins with `has_pending_work()` false. -/
theorem drain_exhaustion {E : Type} (executor : ISpinnable E) :
    (∀ (fuel : Nat) (e : E) (r : E × List DrainEvent),
        drain executor fuel e [] = some r →
        ∃ k, r.2 = drain_calls k ∧ spins r.2 = k ∧ r.1 = executor.spin_TIME_ZERO^[k] e ∧
          executor.has_pending_work r.1 = false ∧
          ∀ j, j < k → executor.has_pending_work (executor.spin_TIME_ZERO^[j] e) = true)
      ∧ (∀ (fuel : Nat) (e : E), executor.has_pending_work e = false →
          drain executor (fuel + 1) e [] = some (e, [DrainEvent.has_pending_work false]) ∧
            spins [DrainEvent.has_pending_work false] = 0)
      ∧ (∀ (units : E → Nat),
          (∀ e, executor.has_pending_work e = decide (0 < units e)) →
          (∀ e, 0 < units e → units (executor.spin_TIME_ZERO e) = units e - 1) →
          ∀ (e : E) (fuel : Nat), units e < fuel →
            drain executor fuel e [] =
                some (executor.spin_TIME_ZERO^[units e] e, drain_calls (units e))
              ∧ spins (drain_calls (units e)) = units e
              ∧ executor.has_pending_work (executor.spin_TIME_ZERO^[units e] e) = false) := by
  refine ⟨?_, ?_, ?_⟩
  · intro fuel e r h
    obtain ⟨k, _, htrace, hstate, hfalse, htrue⟩ := drain_exit executor fuel e [] r h
    have htrace2 : r.2 = drain_calls k := by simpa using htrace
    exact ⟨k, htrace2, by rw [htrace2, spins_drain_calls], hstate, hfalse, htrue⟩
  · intro fuel e hp
    refine ⟨by simp [drain, hp], by simp [spins]⟩
  · intro units hpending hspin e fuel hfuel
    have hrun := drain_counts_units executor units hpending hspin (units e) e [] fuel rfl hfuel
    rw [List.nil_append] at hrun
    obtain ⟨k, _, _, hstate, hfalse, _⟩ := drain_exit executor fuel e [] _ hrun
    refine ⟨hrun, spins_drain_calls _, ?_⟩
    simpa using hfalse

/-- C8 at a concrete input: an executor holding 3 work units, drained with fuel 10. -/
theorem drain_exhaustion_witness :
    drain counting_executor 10 3 [] =
        some (counting_executor.spin_TIME_ZERO^[3] 3, drain_calls 3)
      ∧ spins (drain_calls 3) = 3
      ∧ counting_executor.has_pending_work (counting_executor.spin_TIME_ZERO^[3] 3) = false :=
  (drain_exhaustion counting_executor).2.2 (fun n => n) (fun _ => rfl) (fun _ _ => rfl)
    3 10 (by decide)

/-! ## Claims on correlation state and multiplexing -/

/-- C10. The requester keeps no correlation state.  For every transport, every client,
every two histories of `send_request` calls on it and every sequence of inbound samples,
`ServiceClient::on_data_available` gives the same callback invocations (and reader) after
either history; and a valid sample whose non-null related key is none of the keys the
history returned still triggers the callback, with that key and its payload. -/
theorem client_keeps_no_correlation_state {W Req Res : Type} (SAMPLEKEY_INVALID : SampleKey)
    (extended_write : ExtendedWrite W Req) (client : ServiceClient W)
    (history1 history2 : List Req) (samples : List (Sample Res))
    (log : List (SampleKey × Res)) :
    ServiceClient.on_data_available SAMPLEKEY_INVALID
        (ServiceClient.send_requests extended_write client history1).2 samples log =
      ServiceClient.on_data_available SAMPLEKEY_INVALID
        (ServiceClient.send_requests extended_write client history2).2 samples log
      ∧ (∀ s : Sample Res, s.info.valid_data = true →
          s.info.extension.related_sample_identity ≠ SAMPLEKEY_INVALID →
          s.info.extension.related_sample_identity ∉
            (ServiceClient.send_requests extended_write client history1).1 →
          ServiceClient.on_data_available SAMPLEKEY_INVALID
              (ServiceClient.send_requests extended_write client history1).2 [s] [] =
            ([(s.info.extension.related_sample_identity, s.data)], [])) := by
  refine ⟨?_, ?_⟩
  · rw [ServiceClient.client_loop_eq, ServiceClient.client_loop_eq]
  · intro s hvalid hkey _
    rw [ServiceClient.client_loop_eq]
    simp [ServiceClient.expected_callbacks, List.filter_cons, hvalid, hkey]

/-- C10 at a concrete input: after two requests on a writer with identity 7 (keys (7, 1)
and (7, 2)), a valid sample related to key (9, 5) of another writer triggers the callback. -/
theorem client_keeps_no_correlation_state_witness :
    ServiceClient.on_data_available (⟨0, 0⟩ : SampleKey)
        (ServiceClient.send_requests DataWriter.extended_write
          (⟨"rq", "rr", "tq", "tr", ⟨7, 0⟩⟩ : ServiceClient DataWriter) ["a", "b"]).2
        [(⟨3000, ⟨true, ⟨⟨8, 1⟩, ⟨9, 5⟩⟩⟩⟩ : Sample Nat)] [] =
      ([((⟨9, 5⟩ : SampleKey), 3000)], []) :=
  (client_keeps_no_correlation_state (⟨0, 0⟩ : SampleKey) DataWriter.extended_write
    (⟨"rq", "rr", "tq", "tr", ⟨7, 0⟩⟩ : ServiceClient DataWriter) ["a", "b"] []
    ([] : List (Sample Nat)) []).2
    ⟨3000, ⟨true, ⟨⟨8, 1⟩, ⟨9, 5⟩⟩⟩⟩ rfl (by decide) (by decide)

/-- The keys a run of `send_request` calls returns on a minting writer: the writer's
identity with the sequence numbers after the last one, in order. -/
theorem send_requests_keys {Req : Type} (client : ServiceClient DataWriter)
    (requests : List Req) :
    (ServiceClient.send_requests DataWriter.extended_write client requests).1 =
      (List.range requests.length).map (fun i =>
        (⟨client.request_writer_.guid,
          ((client.request_writer_.last_sequence_number + 1 + i : Nat) : Int)⟩ : SampleKey)) := by
  induction requests generalizing client with
  | nil => simp [ServiceClient.send_requests]
  | cons request rest ih =>
    simp only [ServiceClient.send_requests, ServiceClient.send_request,
      DataWriter.extended_write, List.length_cons, List.range_succ_eq_map, List.map_cons,
      List.map_map]
    rw [ih]
    simp only [List.cons.injEq, Nat.add_zero, true_and]
    apply List.map_congr_left
    intro i _
    simp only [Function.comp_apply, SampleKey.mk.injEq, true_and]
    push_cast
    omega

/-- The keys of a minting writer are pairwise distinct. -/
theorem send_requests_keys_nodup {Req : Type} (client : ServiceClient DataWriter)
    (requests : List Req) :
    (ServiceClient.send_requests DataWriter.extended_write client requests).1.Nodup := by
  rw [send_requests_keys]
  apply List.Nodup.map _ (List.nodup_range _)
  intro i j hij
  simp only [SampleKey.mk.injEq, true_and] at hij
  omega

/-- Every key of a minting writer carries the writer's identity. -/
theorem send_requests_keys_guid {Req : Type} (client : ServiceClient DataWriter)
    (requests : List Req) (k : SampleKey)
    (hk : k ∈ (ServiceClient.send_requests DataWriter.extended_write client requests).1) :
    k.writer_guid = client.request_writer_.guid := by
  rw [send_requests_keys] at hk
  simp only [List.mem_map, List.mem_range] at hk
  obtain ⟨i, _, rfl⟩ := hk
  rfl

/-- C5. Multiplexing, with the spec's key-minting writer behind `request_writer_` whose
identity is not that of the null key.  For every `N` requests sent with `send_request`
before any response arrives, the `N` returned keys are pairwise distinct; and when the
requests reach the server as valid samples carrying those keys as `sample_identity`, then
for every order `arrival` in which the published responses reach the client as valid
samples, the callback invocations are, in arrival order, the (related key, payload) of the
arrived samples, and they are a rearrangement of the pairs `(K_i, handler(R_i))`: every
request gets exactly its own pair. -/
theorem multiplexing {Req Res : Type} (SAMPLEKEY_INVALID : SampleKey)
    (client : ServiceClient DataWriter) (server : ServiceServer Req Res)
    (requests : List Req) (request_samples : List (Sample Req))
    (arrival : List (Sample Res))
    (hguid : client.request_writer_.guid ≠ SAMPLEKEY_INVALID.writer_guid)
    (hrequest_data : request_samples.map (fun s => s.data) = requests)
    (hrequest_identity : request_samples.map (fun s => s.info.extension.sample_identity) =
      (ServiceClient.send_requests DataWriter.extended_write client requests).1)
    (hrequest_valid : ∀ s ∈ request_samples, s.info.valid_data = true)
    (harrival_valid : ∀ s ∈ arrival, s.info.valid_data = true)
    (harrival : List.Perm
      (arrival.map (fun s => (s.data, s.info.extension.related_sample_identity)))
      ((ServiceServer.publications
          (ServiceServer.on_data_available server request_samples []).1).map
        (fun p => (p.1, p.2.related_sample_identity.related_sample_identity)))) :
    (ServiceClient.send_requests DataWriter.extended_write client requests).1.length =
        requests.length
      ∧ (ServiceClient.send_requests DataWriter.extended_write client requests).1.Nodup
      ∧ (ServiceClient.on_data_available SAMPLEKEY_INVALID
          (ServiceClient.send_requests DataWriter.extended_write client requests).2
          arrival []).1 =
        arrival.map (fun s => (s.info.extension.related_sample_identity, s.data))
      ∧ List.Perm
        (ServiceClient.on_data_available SAMPLEKEY_INVALID
          (ServiceClient.send_requests DataWriter.extended_write client requests).2
          arrival []).1
        (List.zip (ServiceClient.send_requests DataWriter.extended_write client requests).1
          (requests.map server.callback_)) := by
  -- what the server publishes, as (payload, related key) pairs
  have hpubs : (ServiceServer.publications
      (ServiceServer.on_data_available server request_samples []).1).map
        (fun p => (p.1, p.2.related_sample_identity.related_sample_identity)) =
      List.zip (requests.map server.callback_)
        (ServiceClient.send_requests DataWriter.extended_write client requests).1 := by
    rw [ServiceServer.publications_on_data_available, ← hrequest_identity, ← hrequest_data]
    simp only [ServiceServer.publications, List.nil_append, ServiceServer.expected_publications]
    rw [List.filter_eq_self.mpr (fun s hs => by simpa using hrequest_valid s hs)]
    simp only [List.map_map, List.zip_map']
    rfl
  rw [hpubs] at harrival
  -- every arrived sample carries one of the minted keys, hence not the null key
  have hkeys : ∀ s ∈ arrival, s.info.valid_data = true ∧
      s.info.extension.related_sample_identity ≠ SAMPLEKEY_INVALID := by
    intro s hs
    refine ⟨harrival_valid s hs, ?_⟩
    have hmem : (s.data, s.info.extension.related_sample_identity) ∈
        arrival.map (fun s => (s.data, s.info.extension.related_sample_identity)) :=
      List.mem_map_of_mem _ hs
    have hzip := (harrival.mem_iff).mp hmem
    have hkey := (List.of_mem_zip hzip).2
    have hg := send_requests_keys_guid client requests _ hkey
    intro heq
    rw [heq] at hg
    exact hguid hg.symm
  have hcalls : (ServiceClient.on_data_available SAMPLEKEY_INVALID
      (ServiceClient.send_requests DataWriter.extended_write client requests).2
      arrival []).1 =
      arrival.map (fun s => (s.info.extension.related_sample_identity, s.data)) := by
    rw [ServiceClient.client_loop_eq,
      ServiceClient.expected_callbacks_all SAMPLEKEY_INVALID arrival hkeys]
    simp
  refine ⟨?_, send_requests_keys_nodup client requests, hcalls, ?_⟩
  · rw [send_requests_keys]
    simp
  · rw [hcalls]
    have hswap := harrival.map Prod.swap
    rw [List.zip_swap, List.map_map] at hswap
    exact hswap

/-- C5 at a concrete input: two requests on a writer with identity 7, answered by the
string-length handler, with the responses arriving in the opposite order. -/
theorem multiplexing_witness :
    (ServiceClient.send_requests DataWriter.extended_write
        (⟨"rq", "rr", "tq", "tr", ⟨7, 0⟩⟩ : ServiceClient DataWriter)
        ["exposure", "gain"]).1.length = ["exposure", "gain"].length
      ∧ (ServiceClient.send_requests DataWriter.extended_write
        (⟨"rq", "rr", "tq", "tr", ⟨7, 0⟩⟩ : ServiceClient DataWriter)
        ["exposure", "gain"]).1.Nodup
      ∧ (ServiceClient.on_data_available (⟨0, 0⟩ : SampleKey)
          (ServiceClient.send_requests DataWriter.extended_write
            (⟨"rq", "rr", "tq", "tr", ⟨7, 0⟩⟩ : ServiceClient DataWriter)
            ["exposure", "gain"]).2
          [(⟨4, ⟨true, ⟨⟨8, 1⟩, ⟨7, 2⟩⟩⟩⟩ : Sample Nat), ⟨8, ⟨true, ⟨⟨8, 2⟩, ⟨7, 1⟩⟩⟩⟩] []).1 =
        [(⟨4, ⟨true, ⟨⟨8, 1⟩, ⟨7, 2⟩⟩⟩⟩ : Sample Nat), ⟨8, ⟨true, ⟨⟨8, 2⟩, ⟨7, 1⟩⟩⟩⟩].map
          (fun s => (s.info.extension.related_sample_identity, s.data))
      ∧ List.Perm
        (ServiceClient.on_data_available (⟨0, 0⟩ : SampleKey)
          (ServiceClient.send_requests DataWriter.extended_write
            (⟨"rq", "rr", "tq", "tr", ⟨7, 0⟩⟩ : ServiceClient DataWriter)
            ["exposure", "gain"]).2
          [(⟨4, ⟨true, ⟨⟨8, 1⟩, ⟨7, 2⟩⟩⟩⟩ : Sample Nat), ⟨8, ⟨true, ⟨⟨8, 2⟩, ⟨7, 1⟩⟩⟩⟩] []).1
        (List.zip
          (ServiceClient.send_requests DataWriter.extended_write
            (⟨"rq", "rr", "tq", "tr", ⟨7, 0⟩⟩ : ServiceClient DataWriter)
            ["exposure", "gain"]).1
          (["exposure", "gain"].map
            (⟨"rq", "rr", "tq", "tr", String.length⟩ : ServiceServer String Nat).callback_)) :=
  multiplexing (⟨0, 0⟩ : SampleKey)
    (⟨"rq", "rr", "tq", "tr", ⟨7, 0⟩⟩ : ServiceClient DataWriter)
    (⟨"rq", "rr", "tq", "tr", String.length⟩ : ServiceServer String Nat)
    ["exposure", "gain"]
    [⟨"exposure", ⟨true, ⟨⟨7, 1⟩, ⟨0, 0⟩⟩⟩⟩, ⟨"gain", ⟨true, ⟨⟨7, 2⟩, ⟨0, 0⟩⟩⟩⟩]
    [⟨4, ⟨true, ⟨⟨8, 1⟩, ⟨7, 2⟩⟩⟩⟩, ⟨8, ⟨true, ⟨⟨8, 2⟩, ⟨7, 1⟩⟩⟩⟩]
    (by decide) rfl rfl (by decide) (by decide) (by decide)

end DdsPoc
